import Mathlib

/-!
Shallow embedding of the voice-authentication program
(`voice authentication.py`, class `VoiceAuthenticator`) for checking the
natural-language specification against the code.

Modelling conventions:
* Real-number quantities (feature values, likelihood scores, thresholds)
  are embedded as rationals; the float literal `0.7` of line 211 and the
  integer default threshold `-50` of line 131 are exact at this type.
* The numeric kernels of the third-party libraries (librosa DSP values,
  the seeded sklearn EM optimizer, the real square root used by
  StandardScaler) are opaque to the program text, so they appear as
  function-valued fields of an environment record; everything the program
  itself does with their results is embedded concretely.
* Python exceptions are `Except PyError`; a caught exception that makes a
  function return `None` becomes `Option`.
* The pickle files under `models_dir` are the profile store, embedded as
  a map from student id to the stored model bundle.  Scratch `.wav`
  files written and deleted by `record_audio` are a list of file names.
-/

/-- Exceptions raised by the Python libraries that the program can meet. -/
inductive PyError where
  | valueError
  | parameterError
deriving DecidableEq, Repr

/-- Feature matrices are row lists of rational feature vectors,
mirroring the numpy arrays of shape (frames, dims). -/
def FeatureMatrix : Type := List (List ℚ)

instance : DecidableEq FeatureMatrix := by
  unfold FeatureMatrix
  infer_instance

/-- Trained sklearn GaussianMixture object: the constructor arguments of
lines 111-112 plus the fitted parameters, and the likelihood scoring
method `score` (mean per-sample log-likelihood), whose numeric content is
opaque to the program. -/
structure GaussianMixture where
  n_components : ℕ
  max_iter : ℕ
  random_state : ℕ
  weights : List ℚ
  means : List (List ℚ)
  covariances : List (List ℚ)
  score : List (List ℚ) → ℚ

/-- Fitted sklearn StandardScaler: per-dimension mean and the divisor
`scale`, which sklearn derives from the standard deviation. -/
structure ScalerStats where
  mean : List ℚ
  scale : List ℚ
deriving Repr

/-- Environment of library kernels and ambient state visible to
`register_student`: the real square root used when StandardScaler turns
variances into standard deviations, the deterministic seeded EM
optimizer behind GaussianMixture.fit, and the wall clock read by
`datetime.now()` on line 120. -/
structure PyEnv where
  sqrt : ℚ → ℚ
  emKernel : ℕ → ℕ → ℕ → List (List ℚ) → GaussianMixture
  now : String

/-- Mean of column `j` of a row-major matrix (numpy default 0 for a
missing entry never arises on the rectangular inputs the program
builds). -/
def colMean (X : List (List ℚ)) (j : ℕ) : ℚ :=
  (X.map (fun r => r.getD j 0)).sum / (X.length : ℚ)

/-- Population variance of column `j`, as computed by StandardScaler. -/
def colVar (X : List (List ℚ)) (j : ℕ) : ℚ :=
  (X.map (fun r => (r.getD j 0 - colMean X j) ^ 2)).sum / (X.length : ℚ)

/-- Number of feature dimensions of a row-major matrix. -/
def numCols (X : List (List ℚ)) : ℕ := (X.headD []).length

/-- The sklearn helper `_handle_zeros_in_scale`: a zero standard
deviation is replaced by 1 so that constant dimensions are left
centered instead of dividing by zero. -/
def handle_zeros_in_scale (s : ℚ) : ℚ := if s = 0 then 1 else s

/-- StandardScaler().fit on a row-major matrix: per-dimension mean, and
scale equal to the standard deviation with zeros replaced by 1. -/
def StandardScaler_fit (env : PyEnv) (X : List (List ℚ)) : ScalerStats :=
  { mean := (List.range (numCols X)).map (fun j => colMean X j)
  , scale := (List.range (numCols X)).map
      (fun j => handle_zeros_in_scale (env.sqrt (colVar X j))) }

/-- scaler.transform on one row: subtract the per-dimension mean and
divide by the per-dimension scale. -/
def ScalerStats.transform_row (st : ScalerStats) (row : List ℚ) : List ℚ :=
  List.zipWith (fun x ms => (x - ms.1) / ms.2) row (st.mean.zip st.scale)

/-- scaler.transform on a matrix (also the transform half of
fit_transform on line 107 and the call on line 168). -/
def ScalerStats.transform (st : ScalerStats) (X : List (List ℚ)) : List (List ℚ) :=
  X.map st.transform_row

/-- GaussianMixture(...).fit (lines 111-113): sklearn input validation
raises ValueError when the matrix has fewer rows than n_components,
otherwise the deterministic EM optimizer runs with the given
random_state.  (Rationals have no non-finite values, so the sklearn
finiteness check is identically satisfied in this embedding.) -/
def gmmFit (env : PyEnv) (n_components max_iter random_state : ℕ)
    (X : List (List ℚ)) : Except PyError GaussianMixture :=
  if X.length < n_components then .error .valueError
  else .ok (env.emKernel n_components max_iter random_state X)

/-- The pickled model bundle of lines 116-121. -/
structure ModelData where
  gmm : GaussianMixture
  scaler : ScalerStats
  student_id : String
  registration_date : String

/-- Observable state of the authenticator: the pickle files under
models_dir keyed by student id, and the scratch wav files on disk. -/
structure AuthState where
  store : String → Option ModelData
  files : List String

/-- Embeds VoiceAuthenticator.register_student (lines 73-129).  Audio
capture is external, so `samples` is the list of per-sample results of
extract_features on the recordings of the loop of lines 81-96 (None for
a failed extraction); the loop keeps exactly the successful ones.  The
temp wav file of each iteration is removed in the same iteration, so the
file list is unchanged.  An exception from gmm.fit is uncaught and
propagates out of the call; the model file is written only after a
successful fit. -/
def register_student (env : PyEnv) (s : AuthState) (student_id : String)
    (samples : List (Option (List (List ℚ)))) :
    Except PyError Bool × AuthState :=
  let all_features := samples.filterMap id
  if all_features.length = 0 then (.ok false, s)
  else
    let combined_features := all_features.flatten
    let scaler := StandardScaler_fit env combined_features
    let normalized_features := scaler.transform combined_features
    match gmmFit env 16 200 42 normalized_features with
    | .error e => (.error e, s)
    | .ok gmm =>
      let model_data : ModelData :=
        { gmm := gmm, scaler := scaler, student_id := student_id
        , registration_date := env.now }
      (.ok true,
        { s with store := fun k =>
            if k = student_id then some model_data else s.store k })

/-- Embeds VoiceAuthenticator.verify_student (lines 131-184).  The
verification recording is external, so `recorded` is the result of
extract_features on it (line 157); record_audio writes the temp wav
file and line 161 removes it.  Returns the boolean decision and the
state after the call. -/
def verify_student (s : AuthState) (student_id : String)
    (recorded : Option (List (List ℚ))) (threshold : ℚ := -50) :
    Bool × AuthState :=
  match s.store student_id with
  | none => (false, s)
  | some model_data =>
    let temp_file := "temp_verification_" ++ student_id ++ ".wav"
    let s1 : AuthState := { s with files := temp_file :: s.files }
    let s2 : AuthState := { s1 with files := s1.files.erase temp_file }
    match recorded with
    | none => (false, s2)
    | some features =>
      let normalized_features := model_data.scaler.transform features
      let score := model_data.gmm.score normalized_features
      (decide (score > threshold), s2)

/-- Embeds VoiceAuthenticator.continuous_verification (lines 186-216).
Each checkpoint records fresh audio, so `recs` is the list of
per-checkpoint extraction results fed to the verify_student calls of
line 201 (which use the default threshold).  The pass counter and the
final 70 percent comparison of line 211 follow the code. -/
def continuous_verification (s : AuthState) (student_id : String)
    (recs : List (Option (List (List ℚ)))) : Bool × AuthState :=
  let num_checks := recs.length
  let final := recs.foldl
    (fun (acc : ℕ × AuthState) r =>
      let res := verify_student acc.2 student_id r
      (if res.1 then acc.1 + 1 else acc.1, res.2))
    (0, s)
  (decide (((num_checks : ℚ) * (7 / 10) : ℚ) ≤ (final.1 : ℚ)), final.2)

/-- The boolean outcomes of the individual checkpoints of a
continuous_verification run started in state `s`. -/
def sessionOutcomes (s : AuthState) (student_id : String)
    (recs : List (Option (List (List ℚ)))) : List Bool :=
  recs.map (fun r => (verify_student s student_id r).1)

/-!
Feature extraction (VoiceAuthenticator.extract_features, lines 32-50).
The librosa defaults that determine the observable shape behaviour are
fixed here: librosa.feature.mfcc uses n_fft = 2048 and hop_length = 512
with centered framing, so a waveform of L samples yields 1 + L / 512
analysis frames; librosa.feature.delta uses width = 9 in mode interp and
raises ParameterError whenever the input has fewer than 9 frames.
-/

/-- FFT window length of the librosa short-time analysis (one full
analysis window of audio samples). -/
def n_fft : ℕ := 2048

/-- Hop length between successive librosa analysis frames. -/
def hop_length : ℕ := 512

/-- Filter width of librosa.feature.delta; inputs with fewer frames
raise ParameterError in the default interp mode. -/
def delta_width : ℕ := 9

/-- Number of analysis frames librosa produces for a waveform of the
given sample count (centered framing pads n_fft / 2 on each side). -/
def num_frames (len : ℕ) : ℕ := 1 + len / hop_length

/-- Environment of librosa numeric kernels: the audio decoder behind
librosa.load (an error is a raised decoding exception on an unreadable
file) and the opaque per-entry values of the MFCC and delta filters. -/
structure LibrosaEnv where
  load : String → Except PyError (List ℚ)
  mfccVal : List ℚ → ℕ → ℕ → ℚ
  deltaVal : ℕ → List (List ℚ) → ℕ → ℕ → ℚ

/-- librosa.feature.mfcc with n_mfcc = 13: a matrix of 13 coefficient
rows, one column per analysis frame. -/
def librosa_mfcc (env : LibrosaEnv) (y : List ℚ) : List (List ℚ) :=
  (List.range 13).map (fun i =>
    (List.range (num_frames y.length)).map (fun t => env.mfccVal y i t))

/-- librosa.feature.delta of the given order: raises ParameterError when
the input has fewer than delta_width frames, otherwise a matrix of the
same shape as the input. -/
def librosa_delta (env : LibrosaEnv) (order : ℕ) (M : List (List ℚ)) :
    Except PyError (List (List ℚ)) :=
  if (M.headD []).length < delta_width then .error .parameterError
  else .ok ((List.range M.length).map (fun i =>
    (List.range ((M.headD []).length)).map (fun t => env.deltaVal order M i t)))

/-- numpy transpose of a row-major rectangular matrix, as applied on
line 45 to obtain (time, features) shape. -/
def np_transpose (M : List (List ℚ)) : List (List ℚ) :=
  (List.range ((M.headD []).length)).map (fun t => M.map (fun row => row.getD t 0))

/-- Embeds VoiceAuthenticator.extract_features (lines 32-50): load the
audio, compute the 13 MFCC rows and their first and second order deltas,
stack the three 13-row blocks and transpose; any exception in the
pipeline is caught and turned into None. -/
def extract_features (env : LibrosaEnv) (audio_path : String) :
    Option (List (List ℚ)) :=
  match env.load audio_path with
  | .error _ => none
  | .ok y =>
    let mfcc := librosa_mfcc env y
    match librosa_delta env 1 mfcc with
    | .error _ => none
    | .ok mfcc_delta =>
      match librosa_delta env 2 mfcc with
      | .error _ => none
      | .ok mfcc_delta2 =>
        some (np_transpose (mfcc ++ mfcc_delta ++ mfcc_delta2))

/-!
Concrete instances used to evaluate the definitions on closed inputs.
-/

/-- A concrete trained mixture with an everywhere-zero score kernel. -/
def gmm0 : GaussianMixture :=
  { n_components := 16, max_iter := 200, random_state := 42
  , weights := [1], means := [[0]], covariances := [[1]]
  , score := fun _ => 0 }

/-- A concrete deterministic EM kernel standing for the sklearn
optimizer in closed evaluations. -/
def kernel0 : ℕ → ℕ → ℕ → List (List ℚ) → GaussianMixture :=
  fun k m r X =>
    { n_components := k, max_iter := m, random_state := r
    , weights := [1], means := [X.headD []], covariances := [[1]]
    , score := fun _ => 0 }

/-- A concrete square-root kernel that is zero exactly at zero, the only
property of the real square root the scaler proofs use. -/
def sqrt0 : ℚ → ℚ := fun v => if v = 0 then 0 else 1

/-- Concrete library environment, first run (one wall-clock reading). -/
def envA : PyEnv := { sqrt := sqrt0, emKernel := kernel0, now := "2024-03-01 09:00:00" }

/-- The same library kernels at a later wall-clock reading. -/
def envB : PyEnv := { sqrt := sqrt0, emKernel := kernel0, now := "2024-03-01 09:45:00" }

/-- A stored model bundle for student "stu". -/
def mdW : ModelData :=
  { gmm := gmm0, scaler := { mean := [], scale := [] }
  , student_id := "stu", registration_date := "2024-03-01 09:00:00" }

/-- State whose store holds a profile exactly for student "stu". -/
def stW : AuthState :=
  { store := fun k => if k = "stu" then some mdW else none, files := [] }

/-- State with an empty profile store. -/
def st0 : AuthState := { store := fun _ => none, files := [] }

/-- A pooled feature matrix with 9 frames of 39 dimensions: fewer rows
than the 16 mixture components. -/
def rows9 : List (List ℚ) := List.replicate 9 (List.replicate 39 0)

/-- A pooled feature matrix with 16 rows, enough for the 16 components. -/
def rows16 : List (List ℚ) := List.replicate 16 [0]

/-- Librosa environment whose decoder yields a waveform of exactly one
full analysis window (2048 samples). -/
def envL : LibrosaEnv :=
  { load := fun _ => .ok (List.replicate 2048 0)
  , mfccVal := fun _ _ _ => 0, deltaVal := fun _ _ _ _ => 0 }

/-- Librosa environment whose decoder yields 4096 samples, giving
exactly delta_width analysis frames. -/
def envL9 : LibrosaEnv :=
  { load := fun _ => .ok (List.replicate 4096 0)
  , mfccVal := fun _ _ _ => 0, deltaVal := fun _ _ _ _ => 0 }

/-!
Helper lemmas.
-/

/-- A verification call returns the state it was given: the temp wav
file it records is removed before returning. -/
theorem verify_student_state (s : AuthState) (student_id : String)
    (recorded : Option (List (List ℚ))) (t : ℚ) :
    (verify_student s student_id recorded t).2 = s := by
  cases h : s.store student_id with
  | none => simp [verify_student, h]
  | some md =>
    cases recorded with
    | none => simp [verify_student, h, List.erase_cons_head]
    | some f => simp [verify_student, h, List.erase_cons_head]

/-- The checkpoint loop of continuous_verification counts exactly the
true entries of the per-checkpoint outcome list and leaves the state
unchanged. -/
theorem continuous_foldl (student_id : String) (recs : List (Option (List (List ℚ)))) :
    ∀ (s : AuthState) (n : ℕ),
    recs.foldl
      (fun (acc : ℕ × AuthState) r =>
        let res := verify_student acc.2 student_id r
        (if res.1 then acc.1 + 1 else acc.1, res.2))
      (n, s)
    = (n + (sessionOutcomes s student_id recs).countP (fun b => b), s) := by
  induction recs with
  | nil => intro s n; simp [sessionOutcomes]
  | cons r rs ih =>
    intro s n
    simp only [List.foldl_cons, sessionOutcomes, List.map_cons, List.countP_cons]
    rw [verify_student_state]
    rw [ih s]
    cases hv : (verify_student s student_id r (-50)).1 with
    | false => simp [sessionOutcomes, hv]
    | true => simp [sessionOutcomes, hv]; omega

/-- continuous_verification is the 70 percent comparison applied to the
number of passed checkpoints. -/
theorem continuous_verification_eq (s : AuthState) (student_id : String)
    (recs : List (Option (List (List ℚ)))) :
    continuous_verification s student_id recs
    = (decide (((recs.length : ℚ) * (7 / 10) : ℚ)
        ≤ (((sessionOutcomes s student_id recs).countP (fun b => b) : ℕ) : ℚ)), s) := by
  unfold continuous_verification
  rw [continuous_foldl]
  simp

/-- C1: for every continuous_verification run with at least one
checkpoint, the aggregate decision is pass exactly when the fraction of
passed checkpoints is at least 7/10; in particular the outcome sequence
[Pass, Pass, Fail] aggregates to fail, [Pass, Pass, Pass] to pass, and
[Pass, Fail, Fail] to fail. -/
theorem continuous_verification_aggregate (s : AuthState) (student_id : String)
    (recs : List (Option (List (List ℚ)))) (hne : recs ≠ []) :
    ((continuous_verification s student_id recs).1 = true ↔
      (7 / 10 : ℚ) ≤ (((sessionOutcomes s student_id recs).countP (fun b => b) : ℕ) : ℚ)
        / (recs.length : ℚ))
    ∧ (sessionOutcomes s student_id recs = [true, true, false] →
        (continuous_verification s student_id recs).1 = false)
    ∧ (sessionOutcomes s student_id recs = [true, true, true] →
        (continuous_verification s student_id recs).1 = true)
    ∧ (sessionOutcomes s student_id recs = [true, false, false] →
        (continuous_verification s student_id recs).1 = false) := by
  have hlen : (0 : ℚ) < (recs.length : ℚ) := by
    have := List.length_pos.mpr hne
    exact_mod_cast this
  have hkey := continuous_verification_eq s student_id recs
  have hlen3 : ∀ L : List Bool, sessionOutcomes s student_id recs = L →
      recs.length = L.length := by
    intro L hL
    have := congrArg List.length hL
    simpa [sessionOutcomes] using this
  refine ⟨?_, ?_, ?_, ?_⟩
  · rw [hkey]
    simp only [decide_eq_true_eq]
    rw [le_div_iff₀ hlen, mul_comm]
  · intro h
    have h3 := hlen3 _ h
    rw [hkey, h, h3]
    norm_num
  · intro h
    have h3 := hlen3 _ h
    rw [hkey, h, h3]
    norm_num
  · intro h
    have h3 := hlen3 _ h
    rw [hkey, h, h3]
    norm_num

/-- Closed instance of the session aggregation theorem: three passing
checkpoints aggregate to pass. -/
theorem continuous_verification_aggregate_witness :
    (continuous_verification stW "stu" [some [[1]], some [[1]], some [[1]]]).1 = true := by
  have h := continuous_verification_aggregate stW "stu"
    [some [[1]], some [[1]], some [[1]]] (by simp)
  exact h.2.2.1 (by decide)

/-- C2: for a verification of an enrolled identity whose recording
yields features, the decision is true exactly when the computed score
is strictly greater than the threshold; omitting the threshold argument
uses -50. -/
theorem verify_student_decision_rule (s : AuthState) (student_id : String)
    (md : ModelData) (features : List (List ℚ)) (t : ℚ)
    (hp : s.store student_id = some md) :
    ((verify_student s student_id (some features) t).1 = true ↔
      md.gmm.score (md.scaler.transform features) > t)
    ∧ verify_student s student_id (some features)
        = verify_student s student_id (some features) (-50) := by
  constructor
  · simp [verify_student, hp]
  · rfl

/-- Closed instance of the decision rule: score 0 against threshold -50
authenticates. -/
theorem verify_student_decision_rule_witness :
    (verify_student stW "stu" (some [[1]]) (-50)).1 = true := by
  exact (verify_student_decision_rule stW "stu" mdW [[1]] (-50) rfl).1.mpr (by decide)

/-- C7: for a fixed state, identity and recording, lowering the
threshold preserves a passing verification: if the call passes at
threshold t2 and t1 is at most t2, the call passes at t1. -/
theorem verify_student_threshold_monotone (s : AuthState) (student_id : String)
    (recorded : Option (List (List ℚ))) (t1 t2 : ℚ) (h12 : t1 ≤ t2)
    (h : (verify_student s student_id recorded t2).1 = true) :
    (verify_student s student_id recorded t1).1 = true := by
  cases hp : s.store student_id with
  | none => simp [verify_student, hp] at h
  | some md =>
    cases recorded with
    | none => simp [verify_student, hp] at h
    | some f =>
      simp only [verify_student, hp, decide_eq_true_eq, gt_iff_lt] at h ⊢
      exact lt_of_le_of_lt h12 h

/-- Closed instance of threshold monotonicity: a call passing at -50
also passes at -60. -/
theorem verify_student_threshold_monotone_witness :
    (verify_student stW "stu" (some [[1]]) (-60)).1 = true := by
  exact verify_student_threshold_monotone stW "stu" (some [[1]]) (-60) (-50)
    (by norm_num) (by decide)

/-- C9: a verification call leaves the profile store, and hence every
stored profile, unchanged. -/
theorem verify_student_store_frame (s : AuthState) (student_id : String)
    (recorded : Option (List (List ℚ))) (t : ℚ) :
    ((verify_student s student_id recorded t).2).store = s.store := by
  rw [verify_student_state]

/-- C10: each of the three failure causes of a verification call, a
missing profile, a failed feature extraction, and a score at or below
the threshold, returns the same boolean false. -/
theorem verify_student_failure_uniform (s : AuthState) (student_id : String)
    (recorded : Option (List (List ℚ))) (t : ℚ) :
    (s.store student_id = none → (verify_student s student_id recorded t).1 = false)
    ∧ (recorded = none → (verify_student s student_id recorded t).1 = false)
    ∧ (∀ md features, s.store student_id = some md → recorded = some features →
        md.gmm.score (md.scaler.transform features) ≤ t →
        (verify_student s student_id recorded t).1 = false) := by
  refine ⟨?_, ?_, ?_⟩
  · intro hp
    simp [verify_student, hp]
  · intro hrec
    cases hp : s.store student_id with
    | none => simp [verify_student, hp]
    | some md => simp [verify_student, hp, hrec]
  · intro md features hp hrec hsc
    subst hrec
    simp only [verify_student, hp, decide_eq_false_iff_not, gt_iff_lt, not_lt]
    exact hsc

/-- Closed instances of the uniform failure result: all three causes
evaluate to false. -/
theorem verify_student_failure_uniform_witness :
    (verify_student st0 "stu" (some [[1]]) (-50)).1 = false
    ∧ (verify_student stW "stu" none (-50)).1 = false
    ∧ (verify_student stW "stu" (some [[1]]) 99).1 = false := by
  refine ⟨?_, ?_, ?_⟩
  · exact (verify_student_failure_uniform st0 "stu" (some [[1]]) (-50)).1 rfl
  · exact (verify_student_failure_uniform stW "stu" none (-50)).2.1 rfl
  · exact (verify_student_failure_uniform stW "stu" (some [[1]]) 99).2.2 mdW [[1]]
      rfl rfl (by decide)

/-- The fitted scaler depends on the environment only through its
square-root kernel. -/
theorem StandardScaler_fit_congr (env1 env2 : PyEnv) (X : List (List ℚ))
    (h : env1.sqrt = env2.sqrt) :
    StandardScaler_fit env1 X = StandardScaler_fit env2 X := by
  simp [StandardScaler_fit, h]

/-- The fitted mixture depends on the environment only through its EM
kernel. -/
theorem gmmFit_congr (env1 env2 : PyEnv) (k m r : ℕ) (X : List (List ℚ))
    (h : env1.emKernel = env2.emKernel) :
    gmmFit env1 k m r X = gmmFit env2 k m r X := by
  simp [gmmFit, h]

/-- C8: two enrollment runs on the same samples with the same library
kernels (the fixed seed 42 is baked into the call) return the same
completion status and store bit-identical mixture parameters and
normalization statistics, even though the ambient wall clock of the two
runs differs. -/
theorem register_student_training_deterministic (env1 env2 : PyEnv)
    (s : AuthState) (student_id : String)
    (samples : List (Option (List (List ℚ))))
    (hem : env1.emKernel = env2.emKernel) (hsq : env1.sqrt = env2.sqrt) :
    (register_student env1 s student_id samples).1
      = (register_student env2 s student_id samples).1
    ∧ (((register_student env1 s student_id samples).2.store student_id).map
        (fun md => md.gmm))
      = (((register_student env2 s student_id samples).2.store student_id).map
        (fun md => md.gmm))
    ∧ (((register_student env1 s student_id samples).2.store student_id).map
        (fun md => md.scaler))
      = (((register_student env2 s student_id samples).2.store student_id).map
        (fun md => md.scaler)) := by
  by_cases h0 : (samples.filterMap id).length = 0
  · simp [register_student, h0]
  · have hsc := StandardScaler_fit_congr env1 env2 (samples.filterMap id).flatten hsq
    have hg := gmmFit_congr env1 env2 16 200 42
      ((StandardScaler_fit env2 (samples.filterMap id).flatten).transform
        (samples.filterMap id).flatten) hem
    simp only [register_student, h0, if_false, hsc, hg]
    cases hfit : gmmFit env2 16 200 42
        ((StandardScaler_fit env2 (samples.filterMap id).flatten).transform
          (samples.filterMap id).flatten) with
    | error e => simp
    | ok g => simp

/-- Closed instance of enrollment determinism: the two environments
differ only in the wall clock, and the stored mixtures agree. -/
theorem register_student_training_deterministic_witness :
    (((register_student envA st0 "stu" [some rows16]).2.store "stu").map
      (fun md => md.gmm))
    = (((register_student envB st0 "stu" [some rows16]).2.store "stu").map
      (fun md => md.gmm)) :=
  (register_student_training_deterministic envA envB st0 "stu" [some rows16]
    rfl rfl).2.1

/-- C3 (behaviour at the failing input): when at least one sample
yields features but the pooled matrix has fewer than 16 rows, the
sklearn fit raises ValueError and register_student propagates the
exception instead of reporting an unsuccessful enrollment; the state is
unchanged. -/
theorem register_student_few_rows_raises (env : PyEnv) (s : AuthState)
    (student_id : String) (samples : List (Option (List (List ℚ))))
    (hne : (samples.filterMap id).length ≠ 0)
    (hlt : (samples.filterMap id).flatten.length < 16) :
    register_student env s student_id samples = (.error .valueError, s) := by
  have hT : ((StandardScaler_fit env (samples.filterMap id).flatten).transform
      (samples.filterMap id).flatten).length < 16 := by
    simp only [ScalerStats.transform, List.length_map]
    exact hlt
  simp [register_student, hne, gmmFit, hT]

/-- Closed instance of the uncaught training failure: one successful
sample of 9 frames, pooled matrix 9 x 39, raises ValueError. -/
theorem register_student_few_rows_raises_witness :
    register_student envA st0 "stu" [some rows9] = (.error .valueError, st0) := by
  refine register_student_few_rows_raises envA st0 "stu" [some rows9] ?_ ?_
  · simp [rows9]
  · simp [rows9]

/-- C4 (amended): enrollment aborts with a not-completed report only
when every extraction fails; a raised training exception leaves the
state untouched; and the profile store changes only when enrollment
returns a full success, so an incomplete profile is never written. -/
theorem register_student_failure_reporting (env : PyEnv) (s : AuthState)
    (student_id : String) (samples : List (Option (List (List ℚ)))) :
    (samples.filterMap id = [] →
      register_student env s student_id samples = (.ok false, s))
    ∧ (∀ e, (register_student env s student_id samples).1 = .error e →
        (register_student env s student_id samples).2 = s)
    ∧ ((register_student env s student_id samples).2.store student_id
          ≠ s.store student_id →
        (register_student env s student_id samples).1 = .ok true) := by
  by_cases h0 : (samples.filterMap id).length = 0
  · have hnil : samples.filterMap id = [] := List.length_eq_zero.mp h0
    refine ⟨fun _ => by simp [register_student, h0], ?_, ?_⟩
    · intro e he
      simp [register_student, h0] at he
    · intro hst
      exfalso
      apply hst
      simp [register_student, h0]
  · refine ⟨fun hnil => absurd (congrArg List.length hnil) (by simpa using h0), ?_, ?_⟩
    · intro e he
      simp only [register_student, h0, if_false] at he ⊢
      cases hfit : gmmFit env 16 200 42
          ((StandardScaler_fit env (samples.filterMap id).flatten).transform
            (samples.filterMap id).flatten) with
      | error e2 => simp [hfit]
      | ok g => simp [hfit] at he
    · intro hst
      simp only [register_student, h0, if_false] at hst ⊢
      cases hfit : gmmFit env 16 200 42
          ((StandardScaler_fit env (samples.filterMap id).flatten).transform
            (samples.filterMap id).flatten) with
      | error e2 => simp [hfit] at hst
      | ok g => simp [hfit]

/-- Closed refutation of the unamended propagation claim: the first of
two enrollment samples fails extraction, yet enrollment completes with
success and writes a profile instead of aborting as not completed. -/
theorem register_student_partial_extraction_counterexample :
    [none, some rows16].contains (none : Option (List (List ℚ))) = true
    ∧ (register_student envA st0 "stu" [none, some rows16]).1 = .ok true
    ∧ ((register_student envA st0 "stu" [none, some rows16]).2.store "stu").isSome
        = true := by
  refine ⟨by decide, ?_, ?_⟩
  · rfl
  · rfl

/-- Closed instance of the amended reporting theorem: with every
extraction failed, enrollment returns a clean not-completed report and
an unchanged state. -/
theorem register_student_failure_reporting_witness :
    register_student envA st0 "stu" [none, none, none] = (.ok false, st0) :=
  (register_student_failure_reporting envA st0 "stu" [none, none, none]).1 rfl

/-- Indexing a mapped range below its bound gives the mapped value. -/
theorem range_map_getD {α : Type} (n j : ℕ) (f : ℕ → α) (d : α) (h : j < n) :
    ((List.range n).map f).getD j d = f j := by
  have hlen : j < ((List.range n).map f).length := by simpa using h
  rw [List.getD_eq_getElem _ _ hlen]
  simp

/-- Indexing a zipWith below both bounds gives the combined entries. -/
theorem zipWith_getD {α β γ : Type} (f : α → β → γ) (as : List α) (bs : List β)
    (j : ℕ) (da : α) (db : β) (dc : γ) (ha : j < as.length) (hb : j < bs.length) :
    (List.zipWith f as bs).getD j dc = f (as.getD j da) (bs.getD j db) := by
  have hz : j < (List.zipWith f as bs).length := by
    rw [List.length_zipWith]
    exact lt_min ha hb
  rw [List.getD_eq_getElem _ _ hz, List.getD_eq_getElem _ _ ha,
    List.getD_eq_getElem _ _ hb]
  exact @List.getElem_zipWith α β γ f as bs j hz

/-- C6 (amended): a dimension whose enrollment variance is zero gets
divisor 1 from the zero-handling of the scaler, so applying the scaler
never divides by zero and outputs the centered value, input minus
enrollment mean, for that dimension (zero exactly when the input equals
the mean, not for every input). -/
theorem scaler_zero_variance_centering (env : PyEnv) (X : List (List ℚ)) (j : ℕ)
    (hs : ∀ v, env.sqrt v = 0 ↔ v = 0) (hj : j < numCols X) (hv : colVar X j = 0) :
    (StandardScaler_fit env X).scale.getD j 0 = 1
    ∧ ∀ row : List ℚ, j < row.length →
        ((StandardScaler_fit env X).transform_row row).getD j 0
          = row.getD j 0 - colMean X j := by
  have hsqrt0 : env.sqrt 0 = 0 := (hs 0).mpr rfl
  have hscElem : ∀ d : ℚ, (StandardScaler_fit env X).scale.getD j d = 1 := by
    intro d
    show ((List.range (numCols X)).map
      (fun i => handle_zeros_in_scale (env.sqrt (colVar X i)))).getD j d = 1
    rw [range_map_getD _ _ _ _ hj, hv, hsqrt0]
    simp [handle_zeros_in_scale]
  refine ⟨hscElem 0, fun row hrow => ?_⟩
  have hmean : (StandardScaler_fit env X).mean.getD j 0 = colMean X j := by
    show ((List.range (numCols X)).map (fun i => colMean X i)).getD j 0 = colMean X j
    rw [range_map_getD _ _ _ _ hj]
  have hlm : j < (StandardScaler_fit env X).mean.length := by
    simpa [StandardScaler_fit] using hj
  have hls : j < (StandardScaler_fit env X).scale.length := by
    simpa [StandardScaler_fit] using hj
  have hzip : j < ((StandardScaler_fit env X).mean.zip
      (StandardScaler_fit env X).scale).length := by
    rw [List.length_zip]
    exact lt_min hlm hls
  unfold ScalerStats.transform_row
  rw [zipWith_getD _ _ _ j 0 (0, 1) 0 hrow hzip]
  have hpair : ((StandardScaler_fit env X).mean.zip
        (StandardScaler_fit env X).scale).getD j (0, 1)
      = ((StandardScaler_fit env X).mean.getD j 0,
         (StandardScaler_fit env X).scale.getD j 1) := by
    exact zipWith_getD Prod.mk _ _ j 0 1 (0, 1) hlm hls
  rw [hpair, hmean, hscElem 1]
  simp

/-- Closed refutation of the unamended normalization claim: the single
dimension of the enrollment matrix [[5], [5]] has zero variance, yet
applying the fitted scaler to the input [[7]] outputs 2, not 0. -/
theorem scaler_zero_variance_counterexample :
    colVar [[(5:ℚ)], [5]] 0 = 0
    ∧ (StandardScaler_fit envA [[(5:ℚ)], [5]]).transform [[7]] = [[2]]
    ∧ (StandardScaler_fit envA [[(5:ℚ)], [5]]).transform [[7]] ≠ [[0]] := by
  have hmean : colMean [[(5:ℚ)], [5]] 0 = 5 := by
    norm_num [colMean]
  have hvar : colVar [[(5:ℚ)], [5]] 0 = 0 := by
    norm_num [colVar, hmean]
  have hfit : StandardScaler_fit envA [[(5:ℚ)], [5]]
      = { mean := [5], scale := [1] } := by
    simp only [StandardScaler_fit, numCols]
    rw [show ([[(5:ℚ)], [5]].headD []).length = 1 from rfl,
      show List.range 1 = [0] from rfl]
    norm_num [hvar, hmean, envA, sqrt0, handle_zeros_in_scale]
  refine ⟨hvar, ?_, ?_⟩
  · rw [hfit]
    norm_num [ScalerStats.transform, ScalerStats.transform_row]
  · rw [hfit]
    norm_num [ScalerStats.transform, ScalerStats.transform_row]

/-- Closed instance of the centering theorem on the zero-variance
enrollment matrix [[5], [5]]. -/
theorem scaler_zero_variance_centering_witness :
    (StandardScaler_fit envA [[(5:ℚ)], [5]]).scale.getD 0 0 = 1
    ∧ ((StandardScaler_fit envA [[(5:ℚ)], [5]]).transform_row [7]).getD 0 0
        = [(7:ℚ)].getD 0 0 - colMean [[(5:ℚ)], [5]] 0 := by
  have hs : ∀ v : ℚ, envA.sqrt v = 0 ↔ v = 0 := by
    intro v
    constructor
    · intro h
      by_contra hv
      simp [envA, sqrt0, hv] at h
    · intro h
      simp [envA, sqrt0, h]
  have h := scaler_zero_variance_centering envA [[(5:ℚ)], [5]] 0 hs
    (by decide) (by norm_num [colVar, colMean])
  exact ⟨h.1, h.2 [7] (by decide)⟩

/-- The MFCC block has 13 coefficient rows. -/
theorem librosa_mfcc_length (env : LibrosaEnv) (y : List ℚ) :
    (librosa_mfcc env y).length = 13 := by
  simp [librosa_mfcc]

/-- The first MFCC row has one entry per analysis frame. -/
theorem librosa_mfcc_headD (env : LibrosaEnv) (y : List ℚ) :
    ((librosa_mfcc env y).headD []).length = num_frames y.length := by
  unfold librosa_mfcc
  rw [show (13 : ℕ) = 12 + 1 from rfl, List.range_succ_eq_map]
  simp

/-- The delta filter raises on inputs with fewer than delta_width
frames. -/
theorem librosa_delta_err (env : LibrosaEnv) (order : ℕ) (M : List (List ℚ))
    (h : (M.headD []).length < delta_width) :
    librosa_delta env order M = .error .parameterError := by
  unfold librosa_delta
  rw [if_pos h]

/-- The delta filter on a wide enough input returns a same-shape
matrix. -/
theorem librosa_delta_ok (env : LibrosaEnv) (order : ℕ) (M : List (List ℚ))
    (h : delta_width ≤ (M.headD []).length) :
    librosa_delta env order M = .ok ((List.range M.length).map (fun i =>
      (List.range ((M.headD []).length)).map
        (fun t => env.deltaVal order M i t))) := by
  unfold librosa_delta
  rw [if_neg (Nat.not_lt.mpr h)]

/-- The transpose has one row per column of the input. -/
theorem np_transpose_length (M : List (List ℚ)) :
    (np_transpose M).length = (M.headD []).length := by
  simp [np_transpose]

/-- Every row of the transpose has one entry per row of the input. -/
theorem np_transpose_row_length (M : List (List ℚ)) (row : List ℚ)
    (h : row ∈ np_transpose M) : row.length = M.length := by
  unfold np_transpose at h
  obtain ⟨t, ht, rfl⟩ := List.mem_map.mp h
  simp

/-- The head default of an append is taken from a nonempty first part. -/
theorem headD_append_of_ne_nil {α : Type} (l1 l2 : List α) (d : α)
    (h : l1 ≠ []) : (l1 ++ l2).headD d = l1.headD d := by
  cases l1 with
  | nil => exact absurd rfl h
  | cons a t => rfl

/-- Shape of the stacked and transposed feature pipeline output: one
row per analysis frame, each row of dimension 39. -/
theorem extract_pipeline_shape (m d1 d2 : List (List ℚ)) (T : ℕ)
    (hm13 : m.length = 13) (hd1 : d1.length = m.length)
    (hd2 : d2.length = m.length) (hT : (m.headD []).length = T) :
    (np_transpose (m ++ d1 ++ d2)).length = T
    ∧ ∀ row ∈ np_transpose (m ++ d1 ++ d2), row.length = 39 := by
  have hne : m ≠ [] := by
    intro h
    rw [h] at hm13
    simp at hm13
  constructor
  · rw [np_transpose_length, List.append_assoc,
      headD_append_of_ne_nil m (d1 ++ d2) [] hne]
    exact hT
  · intro row hrow
    rw [np_transpose_row_length _ row hrow]
    simp only [List.length_append, hd1, hd2, hm13]

/-- Extraction fails with None on a decoded waveform with fewer than
delta_width analysis frames. -/
theorem extract_features_short (env : LibrosaEnv) (audio_path : String)
    (y : List ℚ) (hy : env.load audio_path = .ok y)
    (hlt : num_frames y.length < delta_width) :
    extract_features env audio_path = none := by
  have hm : ((librosa_mfcc env y).headD []).length < delta_width := by
    rw [librosa_mfcc_headD]
    exact hlt
  simp [extract_features, hy, librosa_delta_err env 1 (librosa_mfcc env y) hm]

/-- C5 (amended): feature extraction never raises: it returns None when
the audio fails to decode or when the waveform yields fewer than 9
analysis frames (the delta filter width), which covers every empty
waveform and every waveform shorter than one analysis window; whenever
the waveform yields at least 9 frames, it returns a feature matrix with
one row per analysis frame, each row 39-dimensional. -/
theorem extract_features_characterization (env : LibrosaEnv)
    (audio_path : String) :
    (∀ e, env.load audio_path = .error e →
      extract_features env audio_path = none)
    ∧ (∀ y, env.load audio_path = .ok y → num_frames y.length < delta_width →
        extract_features env audio_path = none)
    ∧ (∀ y, env.load audio_path = .ok y → delta_width ≤ num_frames y.length →
        ∃ F, extract_features env audio_path = some F
          ∧ F.length = num_frames y.length
          ∧ ∀ row ∈ F, row.length = 39) := by
  refine ⟨?_, ?_, ?_⟩
  · intro e he
    simp [extract_features, he]
  · intro y hy hlt
    exact extract_features_short env audio_path y hy hlt
  · intro y hy hge
    have hm : delta_width ≤ ((librosa_mfcc env y).headD []).length := by
      rw [librosa_mfcc_headD]
      exact hge
    have hd1 := librosa_delta_ok env 1 (librosa_mfcc env y) hm
    have hd2 := librosa_delta_ok env 2 (librosa_mfcc env y) hm
    have hex : extract_features env audio_path = some (np_transpose
        (librosa_mfcc env y
          ++ (List.range (librosa_mfcc env y).length).map (fun i =>
              (List.range (((librosa_mfcc env y).headD []).length)).map
                (fun t => env.deltaVal 1 (librosa_mfcc env y) i t))
          ++ (List.range (librosa_mfcc env y).length).map (fun i =>
              (List.range (((librosa_mfcc env y).headD []).length)).map
                (fun t => env.deltaVal 2 (librosa_mfcc env y) i t)))) := by
      simp [extract_features, hy, hd1, hd2]
    exact ⟨_, hex, extract_pipeline_shape (librosa_mfcc env y) _ _
      (num_frames y.length) (librosa_mfcc_length env y) (by simp) (by simp)
      (librosa_mfcc_headD env y)⟩

/-- Closed refutation of the one-window success claim: a waveform of
exactly one full analysis window (2048 samples, 5 frames) makes
extraction fail with None instead of returning a feature matrix. -/
theorem extract_features_one_window_counterexample :
    (List.replicate 2048 (0:ℚ)).length = n_fft
    ∧ envL.load "student.wav" = .ok (List.replicate 2048 (0:ℚ))
    ∧ extract_features envL "student.wav" = none := by
  have hload : envL.load "student.wav" = .ok (List.replicate 2048 (0:ℚ)) := rfl
  refine ⟨by rw [List.length_replicate]; rfl, hload, ?_⟩
  apply extract_features_short envL "student.wav" (List.replicate 2048 (0:ℚ)) hload
  rw [List.length_replicate]
  norm_num [num_frames, hop_length, delta_width]

/-- Closed instance of the extraction characterization: 4096 samples
give 9 frames and a 9 x 39 feature matrix. -/
theorem extract_features_characterization_witness :
    ∃ F, extract_features envL9 "student.wav" = some F
      ∧ F.length = num_frames (List.replicate 4096 (0:ℚ)).length
      ∧ ∀ row ∈ F, row.length = 39 := by
  exact (extract_features_characterization envL9 "student.wav").2.2
    (List.replicate 4096 (0:ℚ)) rfl
    (by rw [List.length_replicate]; norm_num [num_frames, hop_length, delta_width])
